import Mathlib

/-!
Verification of the Video-2-Text Streamlit front end (`src/main_app.py`).

The script is presentation glue: it loads the `GEMINI_API_KEY` environment
variable, lazily constructs a Gemini client behind `st.cache_resource`,
renders a title, an input field and a button, and on a click validates the
URL, calls the backend `process_video_insights`, and maps the outcome
(success / `ConnectionError` / `ValueError` / any other exception) to
rendered UI output.

We embed one script run as a pure function from the run inputs (environment
variable, client-initialization outcome, whether the button was clicked, the
text-input contents, and the backend's behavior as a function from URL to
outcome) to the list of UI events the script renders, together with the list
of URLs for which `process_video_insights` was actually invoked.
-/

/-- The structured result produced by the backend pipeline
(`CommunicationAnalysis` imported from `backend.processing_logic`;
the spec calls it `AnalysisResult`): a numeric clarity score, a short
communication-focus label, and the transcript text. -/
structure CommunicationAnalysis where
  clarity_score : Int
  communication_focus : String
  transcript : String
deriving Repr, DecidableEq

/-- The exception kinds the handler distinguishes: `ConnectionError`,
`ValueError`, and any other `Exception` (all carrying their message,
the Python `str(e)`). -/
inductive PyExc where
  | connectionError (msg : String)
  | valueError (msg : String)
  | otherExc (msg : String)
deriving Repr, DecidableEq

/-- One observable UI rendering event, one constructor per Streamlit call
appearing in `main_app.py`. -/
inductive UIEvent where
  | warning (msg : String)
  | errorMsg (msg : String)
  | titleEvt (text : String)
  | markdown (text : String)
  | caption (text : String)
  | subheader (text : String)
  | metric (label value deltaColor : String)
  | info (text : String)
  | expander (label : String) (expanded : Bool) (body : List UIEvent)
  | codeBlock (text language : String)
  | statusStart (label : String) (expanded : Bool)
  | statusWrite (text : String)
  | statusUpdate (label state : String) (expanded : Bool)
  | exceptionTrace (msg : String)
  | textInput (label placeholder key : String)
  | buttonWidget (label buttonType : String)
deriving Repr

/-- Python truthiness of a string: the empty string is falsy, every other
string is truthy. -/
def pyStrTruthy (s : String) : Bool :=
  !s.data.isEmpty

/-- Python truthiness of `os.getenv("GEMINI_API_KEY")`: `None` and the empty
string are falsy, every other string is truthy. -/
def pyTruthy : Option String → Bool
  | some s => pyStrTruthy s
  | none => false

/-- Python `s.startswith(pre)`: the characters of `pre` are a prefix of the
characters of `s`. -/
def pyStartsWith (s pre : String) : Bool :=
  pre.data.isPrefixOf s.data

/-- The `st.markdown` description under the title. -/
def appDescriptionText : String :=
  "A simple backend-focused tool to extract communication insights from a public video URL (e.g., YouTube, Loom). This tool fulfills the **Python Assessment** requirements."

/-- The standing `st.warning` shown when the client is not ready. -/
def apiKeyWarningText : String :=
  "🚨 **API Key Missing!** Please ensure you have set the `GEMINI_API_KEY` in your `.env` file and restarted the application."

/-- The `st.error` message for a URL without a recognized scheme. -/
def urlValidationErrorText : String :=
  "Please enter a valid URL starting with http:// or https://"

/-- The `st.markdown` hint rendered on the `ConnectionError` path. -/
def apiErrorHintText : String :=
  "Please verify your Gemini API key is correct and ensure network connectivity."

/-- The `st.markdown` hint rendered on the `ValueError` path. -/
def processingErrorHintText : String :=
  "This usually means `yt-dlp` couldn\x27t process the video URL. Ensure the link is public and accessible."

/-- Events always rendered after page config: `st.title` and `st.markdown`. -/
def headerEvents : List UIEvent :=
  [ .titleEvt "📹 Video Insight Analyzer",
    .markdown appDescriptionText ]

/-- The interactive form: `st.text_input` and `st.button`. -/
def widgetEvents : List UIEvent :=
  [ .textInput "Enter Public Video URL" "e.g., https://www.youtube.com/watch?v=dQw4w9WgXcQ" "video_url_input",
    .buttonWidget "Analyze Video Insights" "primary" ]

/-- The footer `st.markdown("---")` and `st.caption`. -/
def footerEvents : List UIEvent :=
  [ .markdown "---",
    .caption "Backend powered by Python, yt-dlp, and Google Gemini. UI via Streamlit." ]

/-- The `st.status` opening and the three `status.write` progress lines
emitted before the backend call (rendered whether or not the call raises). -/
def statusPreEvents : List UIEvent :=
  [ .statusStart "Analyzing Video..." true,
    .statusWrite "Starting video analysis pipeline...",
    .statusWrite "Extracting and preparing audio from URL...",
    .statusWrite "Sending audio to Gemini for transcription and LLM analysis..." ]

/-- The output rendered after a successful backend call: the final status
updates, the results subheader, the clarity-score metric (value the f-string
of the score followed by a percent sign), the communication-focus `st.info`
callout, and the transcript inside a collapsed `st.expander`. -/
def successEvents (analysis : CommunicationAnalysis) : List UIEvent :=
  [ .statusWrite "Analysis complete. Structuring results.",
    .statusUpdate "Analysis Complete!" "complete" false,
    .subheader "✅ Analysis Results",
    .metric "Clarity Score" (toString analysis.clarity_score ++ "%") "off",
    .info ("**Communication Focus:** " ++ analysis.communication_focus),
    .expander "View Full Transcript" false [ .codeBlock analysis.transcript "text" ] ]

/-- The `except ConnectionError` branch: API error plus connectivity hint. -/
def apiErrorEvents (msg : String) : List UIEvent :=
  [ .errorMsg ("**API Error:** " ++ msg),
    .markdown apiErrorHintText ]

/-- The `except ValueError` branch: processing error plus yt-dlp hint. -/
def processingErrorEvents (msg : String) : List UIEvent :=
  [ .errorMsg ("**Processing Error:** " ++ msg),
    .markdown processingErrorHintText ]

/-- The `except Exception` branch: `st.exception` traceback plus generic
error message. -/
def unexpectedErrorEvents (msg : String) : List UIEvent :=
  [ .exceptionTrace msg,
    .errorMsg ("An unexpected error occurred during processing: " ++ msg) ]

/-- The exception dispatch of the `try` statement, in source order:
`ConnectionError`, then `ValueError`, then the catch-all `Exception`
(the three classes are disjoint, so the order is immaterial here). -/
def handleExc : PyExc → List UIEvent
  | .connectionError msg => apiErrorEvents msg
  | .valueError msg => processingErrorEvents msg
  | .otherExc msg => unexpectedErrorEvents msg

/-- The whole `try` block: progress events, then the backend call, then
either the success rendering or the matching except-branch rendering. -/
def tryBlockEvents (url : String)
    (pipeline : String → Except PyExc CommunicationAnalysis) : List UIEvent :=
  statusPreEvents ++
    match pipeline url with
    | .ok analysis => successEvents analysis
    | .error exc => handleExc exc

/-- Everything one script run renders, plus the URLs for which
`process_video_insights` was invoked during that run. -/
structure RunOutput where
  events : List UIEvent
  pipelineCalls : List String
deriving Repr

/-- One top-to-bottom run of `main_app.py`.

Inputs: `geminiApiKeyEnv` is `os.getenv("GEMINI_API_KEY")`;
`clientInitError` is `some e` when `genai.Client` construction raises with
message `e` (only reachable when the key is truthy) and `none` when it
succeeds; `buttonClicked` and `video_url` are the widget states for this
rerun; `process_video_insights` is the backend behavior.

The run mirrors the script: set `client_ready`; render title and
description; if the client is not ready render the warning and `st.stop()`;
otherwise render the form; on `st.button(...) and video_url` validate the
scheme (`st.error` + `st.stop()` on failure) or run the `try` block; the
footer renders unless `st.stop()` fired. -/
def runApp (geminiApiKeyEnv : Option String) (clientInitError : Option String)
    (buttonClicked : Bool) (video_url : String)
    (process_video_insights : String → Except PyExc CommunicationAnalysis) :
    RunOutput :=
  let initEvents : List UIEvent :=
    if pyTruthy geminiApiKeyEnv then
      match clientInitError with
      | some e => [ .errorMsg ("Failed to initialize Gemini Client: " ++ e) ]
      | none => []
    else []
  let client_ready : Bool := pyTruthy geminiApiKeyEnv && clientInitError.isNone
  if !client_ready then
    { events := initEvents ++ headerEvents ++ [ .warning apiKeyWarningText ],
      pipelineCalls := [] }
  else if buttonClicked && pyStrTruthy video_url then
    if !(pyStartsWith video_url "http://" || pyStartsWith video_url "https://") then
      { events := initEvents ++ headerEvents ++ widgetEvents
          ++ [ .errorMsg urlValidationErrorText ],
        pipelineCalls := [] }
    else
      { events := initEvents ++ headerEvents ++ widgetEvents
          ++ tryBlockEvents video_url process_video_insights ++ footerEvents,
        pipelineCalls := [video_url] }
  else
    { events := initEvents ++ headerEvents ++ widgetEvents ++ footerEvents,
      pipelineCalls := [] }

/-- Two consecutive analyze interactions (two script reruns with the button
clicked), first with `url1`, then with `url2`; the script holds no state
across reruns beyond the cached client, so each run is a fresh evaluation. -/
def runConsecutive (geminiApiKeyEnv : Option String)
    (clientInitError : Option String) (url1 url2 : String)
    (p : String → Except PyExc CommunicationAnalysis) : RunOutput × RunOutput :=
  (runApp geminiApiKeyEnv clientInitError true url1 p,
   runApp geminiApiKeyEnv clientInitError true url2 p)

/-- Whether an event is one of the three success outputs: the score metric,
the focus callout, or the transcript expander. -/
def isSuccessOutput : UIEvent → Bool
  | .metric _ _ _ => true
  | .info _ => true
  | .expander _ _ _ => true
  | _ => false

/-- Whether any `st.error` message appears among the events. -/
def hasErrorMsgEvt (evs : List UIEvent) : Bool :=
  evs.any fun ev =>
    match ev with
    | .errorMsg _ => true
    | _ => false

/-- Whether the `ValueError` branch hint appears among the events. -/
def rendersProcessingHint (evs : List UIEvent) : Bool :=
  evs.any fun ev =>
    match ev with
    | .markdown t => t == processingErrorHintText
    | _ => false

/-- Whether an `st.exception` traceback (rendered only on the catch-all
branch) appears among the events. -/
def hasExceptionTrace (evs : List UIEvent) : Bool :=
  evs.any fun ev =>
    match ev with
    | .exceptionTrace _ => true
    | _ => false

/-- A concrete backend used for witnesses: always succeeds with the
spec example result. -/
def demoPipeline : String → Except PyExc CommunicationAnalysis :=
  fun _ => .ok ⟨87, "Active Listening", "Hello world"⟩

/-- A string starting with a URL scheme is truthy (non-empty), so the
`and video_url` part of the button condition passes for it. -/
theorem pyStrTruthy_of_scheme (s : String)
    (h : pyStartsWith s "http://" = true ∨ pyStartsWith s "https://" = true) :
    pyStrTruthy s = true := by
  cases hd : s.data with
  | nil =>
    rcases h with h | h <;>
      (unfold pyStartsWith at h; rw [hd] at h; exact absurd h (by decide))
  | cons a l =>
    unfold pyStrTruthy
    rw [hd]
    rfl

/-- Modelled from the spec: the `st.cache_resource` decorator on
`get_gemini_client` is implemented by the UI framework, outside the included
source. Per the spec it is a lazy-initialized singleton behind the accessor:
a one-time guard stores the constructed `genai.Client(api_key=GEMINI_API_KEY)`
handle and every later call returns the stored handle unchanged. -/
structure GenaiClient where
  api_key : String
deriving Repr, DecidableEq

/-- Modelled from the spec: the cache state (the optionally stored handle)
and the number of client constructions after `n` accessor calls. Call
`n + 1` returns the stored handle when present and otherwise constructs the
client, storing it and counting one construction. -/
def cacheRun (key : String) : Nat → Option GenaiClient × Nat
  | 0 => (none, 0)
  | n + 1 =>
    match cacheRun key n with
    | (some c, k) => (some c, k)
    | (none, k) => (some ⟨key⟩, k + 1)

/-- Modelled from the spec: the value the accessor returns on its
`n + 1`-st invocation (cache state after `n` earlier calls). -/
def get_gemini_client (key : String) (n : Nat) : GenaiClient :=
  match (cacheRun key n).1 with
  | some c => c
  | none => ⟨key⟩

theorem cacheRun_succ_eq (key : String) :
    ∀ n : Nat, cacheRun key (n + 1) = (some ⟨key⟩, 1) := by
  intro n
  induction n with
  | zero => rfl
  | succ m ih => rw [cacheRun, ih]

/-- C4: if `GEMINI_API_KEY` is absent at startup, the run renders the header
followed by the standing warning and stops there: the interactive form is
never rendered, and for every click state, input string and backend behavior
`process_video_insights` is never invoked. -/
theorem c4_missing_key_blocks (clientInitError : Option String)
    (clicked : Bool) (url : String)
    (p : String → Except PyExc CommunicationAnalysis) :
    runApp none clientInitError clicked url p =
      { events := headerEvents ++ [ .warning apiKeyWarningText ],
        pipelineCalls := [] } :=
  rfl

/-- C2: for every input string lacking both recognized scheme prefixes, a
click of the analyze button never invokes `process_video_insights`, whatever
the key, the client-initialization outcome and the backend behavior. -/
theorem c2_invalid_url_no_pipeline (keyEnv clientInitError : Option String)
    (url : String) (p : String → Except PyExc CommunicationAnalysis)
    (h1 : pyStartsWith url "http://" = false)
    (h2 : pyStartsWith url "https://" = false) :
    (runApp keyEnv clientInitError true url p).pipelineCalls = [] := by
  cases hc : pyTruthy keyEnv <;> cases clientInitError <;>
    cases he : pyStrTruthy url <;>
      simp [runApp, hc, he, h1, h2]

/-- Witness for C2 at the concrete input "ftp://example.com". -/
theorem c2_invalid_url_no_pipeline_witness :
    pyStartsWith "ftp://example.com" "http://" = false ∧
    pyStartsWith "ftp://example.com" "https://" = false ∧
    (runApp (some "key") none true "ftp://example.com" demoPipeline).pipelineCalls = [] :=
  ⟨by decide, by decide,
    c2_invalid_url_no_pipeline (some "key") none "ftp://example.com" demoPipeline
      (by decide) (by decide)⟩

/-- C10: with a ready client, clicking analyze on the empty input string is a
silent no-op: the run renders only header, form and footer — in particular no
error message — and the backend is not invoked. -/
theorem c10_empty_input_noop (keyEnv : Option String)
    (p : String → Except PyExc CommunicationAnalysis)
    (hk : pyTruthy keyEnv = true) :
    runApp keyEnv none true "" p =
      { events := headerEvents ++ widgetEvents ++ footerEvents,
        pipelineCalls := [] } ∧
    hasErrorMsgEvt (runApp keyEnv none true "" p).events = false := by
  have h : runApp keyEnv none true "" p =
      { events := headerEvents ++ widgetEvents ++ footerEvents,
        pipelineCalls := [] } := by
    simp [runApp, hk, pyStrTruthy]
  exact ⟨h, by rw [h]; rfl⟩

/-- Witness for C10 at a concrete run. -/
theorem c10_empty_input_noop_witness :
    runApp (some "key") none true "" demoPipeline =
      { events := headerEvents ++ widgetEvents ++ footerEvents,
        pipelineCalls := [] } ∧
    hasErrorMsgEvt (runApp (some "key") none true "" demoPipeline).events = false :=
  c10_empty_input_noop (some "key") demoPipeline (by decide)

/-- C3 as stated is refuted by the empty input string: it lacks both scheme
prefixes, yet a ready client and a click on it render no error message at all
(the button condition requires a non-empty string before the scheme check
runs), so no validation error is shown for that interaction. -/
theorem c3_counterexample_empty_input :
    (pyStartsWith "" "http://" = false ∧ pyStartsWith "" "https://" = false) ∧
    hasErrorMsgEvt (runApp (some "key") none true "" demoPipeline).events = false :=
  ⟨⟨by decide, by decide⟩, by rfl⟩

/-- C3 amended: for every NON-EMPTY input string that does not begin with a
recognized URL scheme, submitting it renders the validation error message and
halts the interaction: the run ends at that error (no footer) and the backend
is not invoked. -/
theorem c3_nonempty_invalid_url_error (keyEnv : Option String) (url : String)
    (p : String → Except PyExc CommunicationAnalysis)
    (hk : pyTruthy keyEnv = true) (hne : pyStrTruthy url = true)
    (h1 : pyStartsWith url "http://" = false)
    (h2 : pyStartsWith url "https://" = false) :
    runApp keyEnv none true url p =
      { events := headerEvents ++ widgetEvents
          ++ [ .errorMsg urlValidationErrorText ],
        pipelineCalls := [] } := by
  simp [runApp, hk, hne, h1, h2]

/-- Witness for the amended C3 at the concrete input "ftp://example.com". -/
theorem c3_nonempty_invalid_url_error_witness :
    runApp (some "key") none true "ftp://example.com" demoPipeline =
      { events := headerEvents ++ widgetEvents
          ++ [ .errorMsg urlValidationErrorText ],
        pipelineCalls := [] } :=
  c3_nonempty_invalid_url_error (some "key") "ftp://example.com" demoPipeline
    (by decide) (by decide) (by decide) (by decide)

/-- Whether the `ConnectionError` branch hint appears among the events. -/
def rendersApiHint (evs : List UIEvent) : Bool :=
  evs.any fun ev =>
    match ev with
    | .markdown t => t == apiErrorHintText
    | _ => false

/-- C1: for every successful run whose result has clarity score 87, focus
"Active Listening" and transcript "Hello world", the rendered events contain
the metric whose value is the string "87%", the info callout carrying the
focus label verbatim, and the expander holding the transcript with default
expanded state `false`. -/
theorem c1_success_rendering (keyEnv : Option String) (url : String)
    (p : String → Except PyExc CommunicationAnalysis)
    (r : CommunicationAnalysis)
    (hk : pyTruthy keyEnv = true)
    (hu : pyStartsWith url "http://" = true ∨ pyStartsWith url "https://" = true)
    (hp : p url = .ok r)
    (h87 : r.clarity_score = 87)
    (hfocus : r.communication_focus = "Active Listening")
    (htr : r.transcript = "Hello world") :
    UIEvent.metric "Clarity Score" "87%" "off"
        ∈ (runApp keyEnv none true url p).events ∧
    UIEvent.info "**Communication Focus:** Active Listening"
        ∈ (runApp keyEnv none true url p).events ∧
    UIEvent.expander "View Full Transcript" false
        [ .codeBlock "Hello world" "text" ]
        ∈ (runApp keyEnv none true url p).events := by
  have hne := pyStrTruthy_of_scheme url hu
  have hor : (pyStartsWith url "http://" || pyStartsWith url "https://") = true := by
    rcases hu with h | h <;> simp [h]
  have hv : (toString (87 : Int) ++ "%") = "87%" := rfl
  have hcf : ("**Communication Focus:** " ++ "Active Listening")
      = "**Communication Focus:** Active Listening" := rfl
  simp [runApp, hk, hne, hor, tryBlockEvents, hp, successEvents,
    headerEvents, widgetEvents, statusPreEvents, footerEvents,
    h87, hfocus, htr, hv, hcf]

/-- Witness for C1 at a concrete run. -/
theorem c1_success_rendering_witness :
    UIEvent.metric "Clarity Score" "87%" "off"
        ∈ (runApp (some "key") none true "https://v" demoPipeline).events ∧
    UIEvent.info "**Communication Focus:** Active Listening"
        ∈ (runApp (some "key") none true "https://v" demoPipeline).events ∧
    UIEvent.expander "View Full Transcript" false
        [ .codeBlock "Hello world" "text" ]
        ∈ (runApp (some "key") none true "https://v" demoPipeline).events :=
  c1_success_rendering (some "key") "https://v" demoPipeline
    ⟨87, "Active Listening", "Hello world"⟩
    (by decide) (Or.inr (by decide)) rfl rfl rfl rfl

/-- C5: when the backend raises `ConnectionError`, the run renders exactly
the API-error path — the API error text and the network-connectivity hint —
and renders neither the processing-error hint nor the `st.exception`
traceback of the generic path. -/
theorem c5_connection_error_path (keyEnv : Option String) (url msg : String)
    (p : String → Except PyExc CommunicationAnalysis)
    (hk : pyTruthy keyEnv = true)
    (hu : pyStartsWith url "http://" = true ∨ pyStartsWith url "https://" = true)
    (hp : p url = .error (.connectionError msg)) :
    (runApp keyEnv none true url p).events =
      headerEvents ++ widgetEvents ++ statusPreEvents
        ++ apiErrorEvents msg ++ footerEvents ∧
    rendersProcessingHint (runApp keyEnv none true url p).events = false ∧
    hasExceptionTrace (runApp keyEnv none true url p).events = false := by
  have hne := pyStrTruthy_of_scheme url hu
  have hor : (pyStartsWith url "http://" || pyStartsWith url "https://") = true := by
    rcases hu with h | h <;> simp [h]
  have hev : (runApp keyEnv none true url p).events =
      headerEvents ++ widgetEvents ++ statusPreEvents
        ++ apiErrorEvents msg ++ footerEvents := by
    simp [runApp, hk, hne, hor, tryBlockEvents, hp, handleExc, List.append_assoc]
  refine ⟨hev, ?_, ?_⟩ <;> rw [hev] <;> rfl

/-- Witness for C5 at a concrete run. -/
theorem c5_connection_error_path_witness :
    (runApp (some "key") none true "https://v"
        (fun _ => .error (.connectionError "down"))).events =
      headerEvents ++ widgetEvents ++ statusPreEvents
        ++ apiErrorEvents "down" ++ footerEvents ∧
    rendersProcessingHint (runApp (some "key") none true "https://v"
        (fun _ => .error (.connectionError "down"))).events = false ∧
    hasExceptionTrace (runApp (some "key") none true "https://v"
        (fun _ => .error (.connectionError "down"))).events = false :=
  c5_connection_error_path (some "key") "https://v" "down"
    (fun _ => .error (.connectionError "down"))
    (by decide) (Or.inr (by decide)) rfl

/-- C6: when the backend raises `ValueError`, the run renders exactly the
processing-error path — the processing error text and the private/unsupported
source hint — and renders neither the API-error hint nor the `st.exception`
traceback of the generic path. -/
theorem c6_value_error_path (keyEnv : Option String) (url msg : String)
    (p : String → Except PyExc CommunicationAnalysis)
    (hk : pyTruthy keyEnv = true)
    (hu : pyStartsWith url "http://" = true ∨ pyStartsWith url "https://" = true)
    (hp : p url = .error (.valueError msg)) :
    (runApp keyEnv none true url p).events =
      headerEvents ++ widgetEvents ++ statusPreEvents
        ++ processingErrorEvents msg ++ footerEvents ∧
    rendersApiHint (runApp keyEnv none true url p).events = false ∧
    hasExceptionTrace (runApp keyEnv none true url p).events = false := by
  have hne := pyStrTruthy_of_scheme url hu
  have hor : (pyStartsWith url "http://" || pyStartsWith url "https://") = true := by
    rcases hu with h | h <;> simp [h]
  have hev : (runApp keyEnv none true url p).events =
      headerEvents ++ widgetEvents ++ statusPreEvents
        ++ processingErrorEvents msg ++ footerEvents := by
    simp [runApp, hk, hne, hor, tryBlockEvents, hp, handleExc, List.append_assoc]
  refine ⟨hev, ?_, ?_⟩ <;> rw [hev] <;> rfl

/-- Witness for C6 at a concrete run. -/
theorem c6_value_error_path_witness :
    (runApp (some "key") none true "https://v"
        (fun _ => .error (.valueError "bad url"))).events =
      headerEvents ++ widgetEvents ++ statusPreEvents
        ++ processingErrorEvents "bad url" ++ footerEvents ∧
    rendersApiHint (runApp (some "key") none true "https://v"
        (fun _ => .error (.valueError "bad url"))).events = false ∧
    hasExceptionTrace (runApp (some "key") none true "https://v"
        (fun _ => .error (.valueError "bad url"))).events = false :=
  c6_value_error_path (some "key") "https://v" "bad url"
    (fun _ => .error (.valueError "bad url"))
    (by decide) (Or.inr (by decide)) rfl

/-- C7: every backend exception is caught at the handler boundary — the run
still yields a complete `RunOutput` — and none of the three success outputs
(the score metric, the focus info callout, the transcript expander) appears
in what that interaction renders. -/
theorem c7_all_exceptions_caught (keyEnv clientInitError : Option String)
    (clicked : Bool) (url : String) (exc : PyExc)
    (p : String → Except PyExc CommunicationAnalysis)
    (hp : p url = .error exc) :
    (runApp keyEnv clientInitError clicked url p).events.any isSuccessOutput
      = false := by
  cases hkk : pyTruthy keyEnv <;> cases clientInitError <;>
    cases clicked <;> cases he : pyStrTruthy url <;>
      cases h1 : pyStartsWith url "http://" <;>
        cases h2 : pyStartsWith url "https://" <;>
          cases exc <;>
            simp_all [runApp, tryBlockEvents, handleExc, isSuccessOutput,
              headerEvents, widgetEvents, footerEvents, statusPreEvents,
              apiErrorEvents, processingErrorEvents, unexpectedErrorEvents]

/-- Witness for C7 at a concrete run. -/
theorem c7_all_exceptions_caught_witness :
    (runApp (some "key") none true "https://v"
        (fun _ => .error (.otherExc "boom"))).events.any isSuccessOutput
      = false :=
  c7_all_exceptions_caught (some "key") none true "https://v"
    (.otherExc "boom") (fun _ => .error (.otherExc "boom")) rfl

/-- C8: the client handle is constructed at most once per process: after any
positive number of accessor calls exactly one construction has happened, the
cache permanently holds that first handle unchanged, and every accessor call
returns the same handle as the first call. -/
theorem c8_client_constructed_once (key : String) (n : Nat) (h : 1 ≤ n) :
    cacheRun key n = (some ⟨key⟩, 1) ∧
    (cacheRun key n).2 ≤ 1 ∧
    get_gemini_client key n = get_gemini_client key 0 := by
  obtain ⟨m, rfl⟩ : ∃ m, n = m + 1 := ⟨n - 1, (Nat.succ_pred_eq_of_pos h).symm⟩
  have hc := cacheRun_succ_eq key m
  refine ⟨hc, by rw [hc], ?_⟩
  rw [get_gemini_client, hc]
  rfl

/-- Witness for C8 at five accessor calls. -/
theorem c8_client_constructed_once_witness :
    cacheRun "key" 5 = (some ⟨"key"⟩, 1) ∧
    (cacheRun "key" 5).2 ≤ 1 ∧
    get_gemini_client "key" 5 = get_gemini_client "key" 0 :=
  c8_client_constructed_once "key" 5 (by decide)

/-- C9: in two consecutive analyze interactions the second rendered output is
a function only of the second interaction's URL and backend outcome: it is
unchanged under any change of the first URL and any change of the backend
behavior away from the second URL (so nothing from the first interaction's
result can appear in it). -/
theorem c9_no_state_leak (keyEnv clientInitError : Option String)
    (url1 url1b url2 : String)
    (p pb : String → Except PyExc CommunicationAnalysis)
    (h : p url2 = pb url2) :
    (runConsecutive keyEnv clientInitError url1 url2 p).2 =
      (runConsecutive keyEnv clientInitError url1b url2 pb).2 := by
  simp only [runConsecutive, runApp, tryBlockEvents, h]

/-- Witness for C9 at concrete consecutive runs. -/
theorem c9_no_state_leak_witness :
    (runConsecutive (some "key") none "https://a" "https://c" demoPipeline).2 =
      (runConsecutive (some "key") none "https://b" "https://c" demoPipeline).2 :=
  c9_no_state_leak (some "key") none "https://a" "https://b" "https://c"
    demoPipeline demoPipeline rfl
